import Mathlib

/-
Verification of the tiny-jwt-auth-core gateway (FastAPI + python-jose + httpx).

Shallow embedding notes:
- Time is modelled as `Int` seconds since the epoch; `datetime.now(timezone.utc)`
  becomes an explicit `now : Int` argument and `timedelta` values become second
  counts (`timedelta(minutes=m)` is `m * 60`).
- The HMAC signature computed by `jose.jwt.encode` over the serialized claims is
  modelled by an arbitrary deterministic function
  `sign : String → Claims → List Nat` (secret, claims ↦ signature bytes); the
  fixed algorithm identifier is folded into `sign`, since the `JWTToken` class
  uses a single configured algorithm for both encode and decode.  All theorems
  are proved for every such function, so nothing depends on HMAC internals.
- A signed token is its decoded structure: the claims plus the signature bytes.
- `jose.jwt.decode` verifies the signature first, then validates the `exp`
  claim (rejecting exactly when `exp < now`, with the default leeway 0 and no
  rejection when `exp` is absent), raising `JWSError` / `ExpiredSignatureError`
  (both subclasses of `JWTError`); the repository code catches `JWTError` and
  returns `None`.  Rejections are modelled as `Except` errors tagged with the
  reason, and `verify_token` as the untagged `Option` the Python code returns.
-/

namespace TinyJwtAuth

/-- The JWT claims dictionary built by `create_access_token`: the `sub` claim
holds the username and the `exp` claim holds the absolute expiry in seconds
since the epoch.  Both are optional because `verify_token` must also handle
foreign tokens in which either claim is missing. -/
structure Claims where
  sub : Option String
  exp : Option Int
  deriving DecidableEq, Repr

/-- A signed token as structured data: claims plus signature bytes. -/
structure Token where
  claims : Claims
  sig : List Nat
  deriving DecidableEq, Repr

/-- The expiry instant chosen by `create_access_token` (JWTToken.py lines
37-41).  Python evaluates `if expires_delta:` by truthiness, and a zero
`timedelta` is falsy, so both `None` and a zero delta fall into the default
branch `now + timedelta(minutes=self.access_token_expire_minutes)`. -/
def issuedExpiry (access_token_expire_minutes : Int) (now : Int)
    (expires_delta : Option Int) : Int :=
  match expires_delta with
  | some d => if d = 0 then now + access_token_expire_minutes * 60 else now + d
  | none => now + access_token_expire_minutes * 60

/-- `JWTToken.create_access_token` (JWTToken.py lines 25-43): build the claims
`{"sub": username, "exp": expire}` and sign them with the configured secret. -/
def create_access_token (sign : String → Claims → List Nat) (secret_key : String)
    (access_token_expire_minutes : Int) (now : Int)
    (username : String) (expires_delta : Option Int) : Token :=
  let to_encode : Claims :=
    { sub := some username
      exp := some (issuedExpiry access_token_expire_minutes now expires_delta) }
  { claims := to_encode, sig := sign secret_key to_encode }

/-- The reasons a verification can be rejected: a signature mismatch
(`jose.JWSError`), an expired `exp` claim (`jose.ExpiredSignatureError`), or a
missing/empty `sub` claim (the `return None` branch of `verify_token`). -/
inductive RejectReason where
  | BadSignature
  | Expired
  | MalformedClaims
  deriving DecidableEq, Repr

/-- `jose.jwt.decode` with `verify_signature` and `verify_exp` (JWTToken.py
lines 57-62): recompute the signature over the claims and compare; then reject
exactly when the `exp` claim is present and `exp < now` (default leeway 0). -/
def jwt_decode (sign : String → Claims → List Nat) (secret_key : String)
    (now : Int) (token : Token) : Except RejectReason Claims :=
  if token.sig = sign secret_key token.claims then
    match token.claims.exp with
    | some e => if e < now then .error .Expired else .ok token.claims
    | none => .ok token.claims
  else
    .error .BadSignature

/-- `JWTToken.verify_token` (JWTToken.py lines 45-73) with the rejection reason
kept: decode, then read `payload.get("sub")` and require it truthy (Python
treats the empty string as falsy). -/
def verify_token_reason (sign : String → Claims → List Nat) (secret_key : String)
    (now : Int) (token : Token) : Except RejectReason String :=
  match jwt_decode sign secret_key now token with
  | .error r => .error r
  | .ok payload =>
    match payload.sub with
    | some username => if username = "" then .error .MalformedClaims else .ok username
    | none => .error .MalformedClaims

/-- `JWTToken.verify_token` as the Python function returns it: the username on
success and `None` on every rejection (the `except JWTError` handler and the
missing-`sub` branch both return `None`). -/
def verify_token (sign : String → Claims → List Nat) (secret_key : String)
    (now : Int) (token : Token) : Option String :=
  match verify_token_reason sign secret_key now token with
  | .ok username => some username
  | .error _ => none

/-- C1: for every non-empty subject string, verifying a token produced by
`create_access_token` for that subject, at a verification time strictly before
the token expiry and with the same secret and signing algorithm, returns
exactly that subject. -/
theorem roundtrip_verify_issue (sign : String → Claims → List Nat)
    (secret_key : String) (access_token_expire_minutes now : Int)
    (username : String) (expires_delta : Option Int) (tv : Int)
    (hsub : username ≠ "")
    (hbefore : tv < issuedExpiry access_token_expire_minutes now expires_delta) :
    verify_token sign secret_key tv
      (create_access_token sign secret_key access_token_expire_minutes now
        username expires_delta) = some username := by
  have hx : ¬ issuedExpiry access_token_expire_minutes now expires_delta < tv := by
    omega
  simp [verify_token, verify_token_reason, jwt_decode, create_access_token, hx, hsub]

/-- C1 witness: a concrete round trip with subject "alice". -/
theorem roundtrip_verify_issue_witness :
    ("alice" ≠ "" ∧ (1000 : Int) < issuedExpiry 30 900 none) ∧
    verify_token (fun _ _ => [7, 7]) "k" 1000
      (create_access_token (fun _ _ => [7, 7]) "k" 30 900 "alice" none) =
      some "alice" :=
  ⟨⟨by decide, by decide⟩,
    roundtrip_verify_issue (fun _ _ => [7, 7]) "k" 30 900 "alice" none 1000
      (by decide) (by decide)⟩

/-- C2: the claim says a token issued with a zero `expires_delta` is rejected
as Expired (equivalently that its expiry is never strictly in the future only
when positive ttl is given).  The code contradicts its own docstring ("If
None, uses the default"): `if expires_delta:` treats the zero `timedelta` as
falsy, so a ttl-0 token receives the default 30-minute expiry and verification
one second after issuance succeeds, returning the subject instead of a
rejection.  This theorem evaluates the code at the failing input: issuance at
time 1000 with `expires_delta = 0` yields `exp = 2800`, not `1000`, and
verification at time 1001 returns `some "alice"`. -/
theorem zero_ttl_token_gets_default_expiry :
    (create_access_token (fun _ _ => [0]) "k" 30 1000 "alice"
        (some 0)).claims.exp = some 2800 ∧
    verify_token (fun _ _ => [0]) "k" 1001
      (create_access_token (fun _ _ => [0]) "k" 30 1000 "alice" (some 0)) =
      some "alice" ∧
    verify_token_reason (fun _ _ => [0]) "k" 1001
      (create_access_token (fun _ _ => [0]) "k" 30 1000 "alice" (some 0)) =
      Except.ok "alice" := by
  refine ⟨by decide, by decide, by rfl⟩

/-- A user record in the TinyDB store (mydb.py): the username key and the
bcrypt password hash, the two fields the core reads. -/
structure UserRecord where
  username : String
  password : String
  deriving DecidableEq, Repr

/-- An HTTP error as raised through `HTTPException`: status code, detail
string, and the optional WWW-Authenticate response header. -/
structure HTTPError where
  status_code : Nat
  detail : String
  www_authenticate : Option String
  deriving DecidableEq, Repr

/-- `MyDB.get_user` (mydb.py lines 18-32): search the table for records whose
username matches and return the first match, or `None` when there is none. -/
def get_user (db : List UserRecord) (username : String) : Option UserRecord :=
  (db.filter (fun u => u.username = username)).head?

/-- The success body of the login endpoint:
`{"access_token": ..., "token_type": "bearer"}`. -/
structure TokenResponse where
  access_token : Token
  token_type : String
  deriving DecidableEq, Repr

/-- `login_for_access_token` (main.py lines 103-123): look the user up, raise
401 "Incorrect username or password" when absent, raise the same 401 when the
password hash does not verify, otherwise issue a token for the username with
the default ttl.  `verify_password` stands for
`pwd_context.verify` (bcrypt), an external collaborator passed in explicitly. -/
def login_for_access_token (verify_password : String → String → Bool)
    (sign : String → Claims → List Nat) (secret_key : String)
    (access_token_expire_minutes now : Int) (db : List UserRecord)
    (username password : String) : Except HTTPError TokenResponse :=
  match get_user db username with
  | none =>
    .error { status_code := 401, detail := "Incorrect username or password"
             www_authenticate := some "Bearer" }
  | some user =>
    if verify_password password user.password then
      .ok { access_token := create_access_token sign secret_key
              access_token_expire_minutes now username none
            token_type := "bearer" }
    else
      .error { status_code := 401, detail := "Incorrect username or password"
               www_authenticate := some "Bearer" }

/-- C3: a login attempt whose username is absent from the store and a login
attempt whose username exists but whose password hash does not verify produce
the very same rejection value: one HTTP status (401) and one body, so the
two cases are indistinguishable from the response. -/
theorem login_enumeration_resistant (verify_password : String → String → Bool)
    (sign : String → Claims → List Nat) (secret_key : String)
    (access_token_expire_minutes now : Int)
    (db1 db2 : List UserRecord) (u1 p1 u2 p2 : String) (r : UserRecord)
    (hmiss : get_user db1 u1 = none)
    (hfound : get_user db2 u2 = some r)
    (hbad : verify_password p2 r.password = false) :
    ∃ e : HTTPError,
      login_for_access_token verify_password sign secret_key
        access_token_expire_minutes now db1 u1 p1 = .error e ∧
      login_for_access_token verify_password sign secret_key
        access_token_expire_minutes now db2 u2 p2 = .error e ∧
      e.status_code = 401 := by
  refine ⟨{ status_code := 401, detail := "Incorrect username or password"
            www_authenticate := some "Bearer" }, ?_, ?_, rfl⟩
  · simp [login_for_access_token, hmiss]
  · simp [login_for_access_token, hfound, hbad]

/-- C3 witness: the missing user "bob" against the empty store and the user
"alice" with a failing hash check get the same 401 rejection. -/
theorem login_enumeration_resistant_witness :
    (get_user [] "bob" = none ∧
      get_user [{ username := "alice", password := "h" }] "alice" =
        some { username := "alice", password := "h" } ∧
      (fun (_ : String) (_ : String) => false) "pw" "h" = false) ∧
    ∃ e : HTTPError,
      login_for_access_token (fun _ _ => false) (fun _ _ => [1]) "k" 30 1000
        [] "bob" "pw" = .error e ∧
      login_for_access_token (fun _ _ => false) (fun _ _ => [1]) "k" 30 1000
        [{ username := "alice", password := "h" }] "alice" "pw" = .error e ∧
      e.status_code = 401 :=
  ⟨⟨by decide, by decide, by decide⟩,
    login_enumeration_resistant (fun _ _ => false) (fun _ _ => [1]) "k" 30 1000
      [] [{ username := "alice", password := "h" }] "bob" "pw" "alice" "pw"
      { username := "alice", password := "h" }
      (by decide) (by decide) (by decide)⟩

/-- `get_current_user` (main.py lines 82-100), generic in the verification
function and in the shape of the credential it consumes: when `verify` returns
`None` raise 401 "Invalid authentication credentials" with a
WWW-Authenticate header; otherwise look the subject up in the store and raise
404 "User not found" when absent; otherwise return the user record. -/
def get_current_user {α : Type} (verify : α → Option String)
    (db : List UserRecord) (token : α) : Except HTTPError UserRecord :=
  match verify token with
  | none =>
    .error { status_code := 401, detail := "Invalid authentication credentials"
             www_authenticate := some "Bearer" }
  | some username =>
    match get_user db username with
    | none =>
      .error { status_code := 404, detail := "User not found"
               www_authenticate := none }
    | some user => .ok user

/-- C4: with the real `verify_token` plugged in, the guard splits exactly
three ways: a rejected token gives the 401 rejection, a verified subject with
no user record gives the 404 rejection, and a verified subject with a record
yields that record as the authenticated principal. -/
theorem auth_guard_outcome_split (sign : String → Claims → List Nat)
    (secret_key : String) (now : Int) (db : List UserRecord) (token : Token) :
    (verify_token sign secret_key now token = none →
      get_current_user (verify_token sign secret_key now) db token =
        .error { status_code := 401
                 detail := "Invalid authentication credentials"
                 www_authenticate := some "Bearer" }) ∧
    (∀ u, verify_token sign secret_key now token = some u →
      get_user db u = none →
      get_current_user (verify_token sign secret_key now) db token =
        .error { status_code := 404, detail := "User not found"
                 www_authenticate := none }) ∧
    (∀ u r, verify_token sign secret_key now token = some u →
      get_user db u = some r →
      get_current_user (verify_token sign secret_key now) db token = .ok r) := by
  refine ⟨?_, ?_, ?_⟩
  · intro h
    simp [get_current_user, h]
  · intro u hu hdb
    simp [get_current_user, hu, hdb]
  · intro u r hu hdb
    simp [get_current_user, hu, hdb]

/-- C4 witness: a concretely issued token for "alice" with a matching store
record resolves to that record. -/
theorem auth_guard_outcome_split_witness :
    (verify_token (fun _ _ => [2]) "k" 1000
        (create_access_token (fun _ _ => [2]) "k" 30 1000 "alice" none) =
        some "alice" ∧
      get_user [{ username := "alice", password := "h" }] "alice" =
        some { username := "alice", password := "h" }) ∧
    get_current_user (verify_token (fun _ _ => [2]) "k" 1000)
      [{ username := "alice", password := "h" }]
      (create_access_token (fun _ _ => [2]) "k" 30 1000 "alice" none) =
      .ok { username := "alice", password := "h" } :=
  ⟨⟨by decide, by decide⟩,
    (auth_guard_outcome_split (fun _ _ => [2]) "k" 1000
        [{ username := "alice", password := "h" }]
        (create_access_token (fun _ _ => [2]) "k" 30 1000 "alice" none)).2.2
      "alice" { username := "alice", password := "h" } (by decide) (by decide)⟩

/-- The exceptions the proxy handlers in main.py lines 160-168 can see,
classified by the httpx hierarchy: `timeout` stands for
`httpx.TimeoutException` and its subclasses, `transport` for every other
`httpx.RequestError` (e.g. `httpx.ConnectError`), and `other` for any
remaining exception. -/
inductive PyException where
  | timeout (msg : String)
  | transport (msg : String)
  | other (msg : String)
  deriving DecidableEq, Repr

/-- Membership in the `httpx.TimeoutException` class. -/
def PyException.isTimeoutException : PyException → Bool
  | .timeout _ => true
  | .transport _ => false
  | .other _ => false

/-- Membership in the `httpx.RequestError` class: in httpx,
`TimeoutException` is a subclass of `TransportError`, itself a subclass of
`RequestError`, so a timeout is also a request error. -/
def PyException.isRequestError : PyException → Bool
  | .timeout _ => true
  | .transport _ => true
  | .other _ => false

/-- The `except` chain of `proxy_to_backend` (main.py lines 160-168): Python
dispatches to the FIRST handler whose class matches, so
`except httpx.TimeoutException` wins over `except httpx.RequestError` for a
timeout even though a timeout is a request error, and the bare
`except Exception` catches the rest. -/
def proxyExceptionResponse (e : PyException) : HTTPError :=
  if e.isTimeoutException then
    { status_code := 504, detail := "Backend request timed out"
      www_authenticate := none }
  else if e.isRequestError then
    { status_code := 502, detail := "Error connecting to backend"
      www_authenticate := none }
  else
    { status_code := 500, detail := "Internal server error"
      www_authenticate := none }

/-- The inbound request as the handler reads it: method, headers, raw body
bytes and query parameters. -/
structure Request where
  method : String
  headers : List (String × String)
  body : List Nat
  query_params : List (String × String)
  deriving DecidableEq, Repr

/-- The request handed to `client.request` (main.py lines 144-151). -/
structure OutgoingRequest where
  method : String
  url : String
  headers : List (String × String)
  content : List Nat
  params : List (String × String)
  timeout : Nat
  deriving DecidableEq, Repr

/-- The backend response: status code, headers, body bytes. -/
structure BackendResponse where
  status_code : Nat
  headers : List (String × String)
  body : List Nat
  deriving DecidableEq, Repr

/-- What one attempt at the backend call does: return a response or raise. -/
inductive BackendOutcome where
  | success (resp : BackendResponse)
  | failure (e : PyException)
  deriving DecidableEq, Repr

/-- The response the gateway returns to the client on the success path. -/
structure ClientResponse where
  status_code : Nat
  headers : List (String × String)
  body : List Nat
  deriving DecidableEq, Repr

/-- Outcome of one call to the proxy handler: a relayed response, an
`HTTPException` raised by an except handler, or an exception raised OUTSIDE
the try block, which no handler catches and which FastAPI turns into a
generic 500. -/
inductive ProxyResult where
  | ok (resp : ClientResponse)
  | httpError (e : HTTPError)
  | uncaught (exc : String)
  deriving DecidableEq, Repr

/-- The outgoing request built inside the try block (main.py lines 140-151):
method, headers, body and query parameters copied from the inbound request,
the URL the fixed string `http://backend:6000/` plus the captured path, and
a 30-second timeout. -/
def buildOutgoing (request : Request) (anypath : String) : OutgoingRequest :=
  { method := request.method
    url := "http://backend:6000/" ++ anypath
    headers := request.headers
    content := request.body
    params := request.query_params
    timeout := 30 }

/-- Decimal digit accumulation for `pyInt`. -/
def parseDigits (cs : List Char) : Option Nat :=
  cs.foldl
    (fun acc c =>
      match acc with
      | some n => if c.isDigit then some (n * 10 + (c.toNat - 48)) else none
      | none => none)
    (some 0)

/-- The Python builtin `int` applied to a decimal string: an optional minus
sign followed by digits gives the value, anything else raises `ValueError`
(modelled as `none`).  The empty digit string is also a `ValueError`. -/
def pyInt (s : String) : Option Int :=
  match s.data with
  | [] => none
  | '-' :: rest =>
    if rest = [] then none else (parseDigits rest).map (fun n => -(n : Int))
  | cs =>
    if cs = [] then none else (parseDigits cs).map (fun n => (n : Int))

/-- `proxy_to_backend` (main.py lines 129-168).  Before the try block it runs
`int(os.environ.get("BACKEND_PORT"))`: when the variable is unset
`os.environ.get` returns `None` and `int(None)` raises an uncaught
`TypeError`; a non-numeric value raises an uncaught `ValueError`.  The parsed
port is bound and never read again.  Inside the try block the outgoing
request is built and sent; a success is relayed as status, headers and body,
and an exception goes through the except chain. -/
def proxy_to_backend (env : String → Option String)
    (backend : OutgoingRequest → BackendOutcome)
    (request : Request) (anypath : String) : ProxyResult :=
  match env "BACKEND_PORT" with
  | none => .uncaught "TypeError"
  | some s =>
    match pyInt s with
    | none => .uncaught "ValueError"
    | some _backend_port =>
      match backend (buildOutgoing request anypath) with
      | .success resp =>
        .ok { status_code := resp.status_code, headers := resp.headers
              body := resp.body }
      | .failure e => .httpError (proxyExceptionResponse e)

/-- C5: when the backend call raises, the handler maps a timeout to exactly
504, a non-timeout request/transport error to exactly 502 and any other
exception to exactly 500; in particular a timeout, although it IS a request
error in the httpx class hierarchy, is mapped to 504 and never to 502.  The
first conjunct ties the mapping to the full handler. -/
theorem proxy_failure_mapping (env : String → Option String)
    (backend : OutgoingRequest → BackendOutcome) (request : Request)
    (anypath s : String) (v : Int) (e : PyException)
    (henv : env "BACKEND_PORT" = some s) (hparse : pyInt s = some v)
    (hb : backend (buildOutgoing request anypath) = .failure e) :
    proxy_to_backend env backend request anypath =
      .httpError (proxyExceptionResponse e) ∧
    (e.isTimeoutException = true →
      (proxyExceptionResponse e).status_code = 504) ∧
    (e.isTimeoutException = false → e.isRequestError = true →
      (proxyExceptionResponse e).status_code = 502) ∧
    (e.isRequestError = false →
      (proxyExceptionResponse e).status_code = 500) ∧
    (∀ m, (PyException.timeout m).isRequestError = true ∧
      (proxyExceptionResponse (PyException.timeout m)).status_code = 504) := by
  refine ⟨?_, ?_, ?_, ?_, ?_⟩
  · simp [proxy_to_backend, henv, hparse, hb]
  · intro h
    simp [proxyExceptionResponse, h]
  · intro h1 h2
    cases e <;> simp_all [proxyExceptionResponse, PyException.isTimeoutException,
      PyException.isRequestError]
  · intro h
    cases e <;> simp_all [proxyExceptionResponse, PyException.isTimeoutException,
      PyException.isRequestError]
  · intro m
    exact ⟨rfl, rfl⟩

/-- C5 witness: a timeout at a concrete request maps to 504 through the full
handler. -/
theorem proxy_failure_mapping_witness :
    ((fun (k : String) => if k = "BACKEND_PORT" then some "6000" else none)
        "BACKEND_PORT" = some "6000" ∧
      pyInt "6000" = some 6000 ∧
      (fun (_ : OutgoingRequest) => BackendOutcome.failure (.timeout "t"))
        (buildOutgoing { method := "GET", headers := [], body := []
                         query_params := [] } "x") =
        .failure (.timeout "t")) ∧
    proxy_to_backend
      (fun k => if k = "BACKEND_PORT" then some "6000" else none)
      (fun _ => .failure (.timeout "t"))
      { method := "GET", headers := [], body := [], query_params := [] } "x" =
      .httpError (proxyExceptionResponse (.timeout "t")) ∧
    (proxyExceptionResponse (PyException.timeout "t")).status_code = 504 :=
  ⟨⟨by decide, by decide, by decide⟩,
    (proxy_failure_mapping
        (fun k => if k = "BACKEND_PORT" then some "6000" else none)
        (fun _ => .failure (.timeout "t"))
        { method := "GET", headers := [], body := [], query_params := [] }
        "x" "6000" 6000 (.timeout "t") (by decide) (by decide) (by decide)).1,
    (proxy_failure_mapping
        (fun k => if k = "BACKEND_PORT" then some "6000" else none)
        (fun _ => .failure (.timeout "t"))
        { method := "GET", headers := [], body := [], query_params := [] }
        "x" "6000" 6000 (.timeout "t") (by decide) (by decide)
        (by decide)).2.1 rfl⟩

/-- C6: the outgoing request preserves the inbound method, headers, body
bytes and query parameters and targets the backend base plus the captured
path, and on a successful backend call the client receives exactly the
backend status code, headers and body. -/
theorem proxy_pass_through (env : String → Option String)
    (backend : OutgoingRequest → BackendOutcome) (request : Request)
    (anypath s : String) (v : Int) (resp : BackendResponse)
    (henv : env "BACKEND_PORT" = some s) (hparse : pyInt s = some v)
    (hb : backend (buildOutgoing request anypath) = .success resp) :
    (buildOutgoing request anypath).method = request.method ∧
    (buildOutgoing request anypath).headers = request.headers ∧
    (buildOutgoing request anypath).content = request.body ∧
    (buildOutgoing request anypath).params = request.query_params ∧
    (buildOutgoing request anypath).url = "http://backend:6000/" ++ anypath ∧
    proxy_to_backend env backend request anypath =
      .ok { status_code := resp.status_code, headers := resp.headers
            body := resp.body } := by
  refine ⟨rfl, rfl, rfl, rfl, rfl, ?_⟩
  simp [proxy_to_backend, henv, hparse, hb]

/-- C6 witness: a POST with a custom header, a body and a query string is
forwarded verbatim and the backend 201 response is relayed verbatim. -/
theorem proxy_pass_through_witness :
    ((fun (k : String) => if k = "BACKEND_PORT" then some "6000" else none)
        "BACKEND_PORT" = some "6000" ∧
      pyInt "6000" = some 6000 ∧
      (fun (_ : OutgoingRequest) => BackendOutcome.success
          { status_code := 201, headers := [("x-resp", "r")], body := [9, 8] })
        (buildOutgoing
          { method := "POST", headers := [("x-custom", "c")], body := [1, 2]
            query_params := [("q", "1")] } "api/items") =
        .success { status_code := 201, headers := [("x-resp", "r")]
                   body := [9, 8] }) ∧
    proxy_to_backend
      (fun k => if k = "BACKEND_PORT" then some "6000" else none)
      (fun _ => .success { status_code := 201, headers := [("x-resp", "r")]
                           body := [9, 8] })
      { method := "POST", headers := [("x-custom", "c")], body := [1, 2]
        query_params := [("q", "1")] } "api/items" =
      .ok { status_code := 201, headers := [("x-resp", "r")], body := [9, 8] } :=
  ⟨⟨by decide, by decide, by decide⟩,
    (proxy_pass_through
        (fun k => if k = "BACKEND_PORT" then some "6000" else none)
        (fun _ => .success { status_code := 201, headers := [("x-resp", "r")]
                             body := [9, 8] })
        { method := "POST", headers := [("x-custom", "c")], body := [1, 2]
          query_params := [("q", "1")] }
        "api/items" "6000" 6000
        { status_code := 201, headers := [("x-resp", "r")], body := [9, 8] }
        (by decide) (by decide) (by decide)).2.2.2.2.2⟩

/-- C10: the handler evaluates `int(os.environ.get("BACKEND_PORT"))` before
the try block, so with the variable unset every call ends in an uncaught
`TypeError` (surfacing as a generic 500) no matter what the backend would do,
i.e. before any backend contact; and the parsed value is never used: the
backend URL is the fixed string and the whole result is unchanged when the
configured port value changes. -/
theorem backend_port_unused (env env2 : String → Option String)
    (backend : OutgoingRequest → BackendOutcome) (request : Request)
    (anypath : String) :
    (env "BACKEND_PORT" = none →
      proxy_to_backend env backend request anypath = .uncaught "TypeError") ∧
    (buildOutgoing request anypath).url = "http://backend:6000/" ++ anypath ∧
    (∀ s s2 v v2, env "BACKEND_PORT" = some s → pyInt s = some v →
      env2 "BACKEND_PORT" = some s2 → pyInt s2 = some v2 →
      proxy_to_backend env backend request anypath =
        proxy_to_backend env2 backend request anypath) := by
  refine ⟨?_, rfl, ?_⟩
  · intro h
    simp [proxy_to_backend, h]
  · intro s s2 v v2 h1 h2 h3 h4
    simp [proxy_to_backend, h1, h2, h3, h4]

/-- C10 witness: with BACKEND_PORT unset the concrete call raises the
uncaught TypeError, and ports 6000 and 7777 give identical results. -/
theorem backend_port_unused_witness :
    ((fun (_ : String) => (none : Option String)) "BACKEND_PORT" = none ∧
      proxy_to_backend (fun _ => none)
        (fun _ => .success { status_code := 200, headers := [], body := [] })
        { method := "GET", headers := [], body := [], query_params := [] } "p" =
        .uncaught "TypeError") ∧
    proxy_to_backend (fun _ => some "6000")
      (fun _ => .success { status_code := 200, headers := [], body := [] })
      { method := "GET", headers := [], body := [], query_params := [] } "p" =
      proxy_to_backend (fun _ => some "7777")
        (fun _ => .success { status_code := 200, headers := [], body := [] })
        { method := "GET", headers := [], body := [], query_params := [] } "p" :=
  ⟨⟨rfl,
      (backend_port_unused (fun _ => none) (fun _ => none)
          (fun _ => .success { status_code := 200, headers := [], body := [] })
          { method := "GET", headers := [], body := [], query_params := [] }
          "p").1 rfl⟩,
    (backend_port_unused (fun _ => some "6000") (fun _ => some "7777")
        (fun _ => .success { status_code := 200, headers := [], body := [] })
        { method := "GET", headers := [], body := [], query_params := [] }
        "p").2.2 "6000" "7777" 6000 7777 rfl (by decide) rfl (by decide)⟩

/-- The Python `str.partition(" ")` split at the FIRST space: the characters
before it and, when a space occurs, the characters after it. -/
def partitionAtSpace : List Char → List Char × Option (List Char)
  | [] => ([], none)
  | c :: cs =>
    if c = ' ' then ([], some cs)
    else
      match partitionAtSpace cs with
      | (before, rest) => (c :: before, rest)

/-- The Python `str.lower()` restricted to its ASCII action, which is all the
scheme comparison needs. -/
def strToLower (s : String) : String :=
  String.mk (s.data.map Char.toLower)

/-- `fastapi.security.utils.get_authorization_scheme_param`: on a falsy header
return two empty strings, otherwise `partition(" ")` at the FIRST space into
the scheme and the parameter. -/
def get_authorization_scheme_param
    (authorization_header_value : Option String) : String × String :=
  match authorization_header_value with
  | none => ("", "")
  | some v =>
    match partitionAtSpace v.data with
    | (before, none) => (String.mk before, "")
    | (before, some rest) => (String.mk before, String.mk rest)

/-- The credential object `HTTPBearer` hands to the dependency. -/
structure HTTPAuthorizationCredentials where
  scheme : String
  credentials : String
  deriving DecidableEq, Repr

/-- `fastapi.security.HTTPBearer.__call__` with the default
`auto_error=True`, as instantiated at main.py line 71: read the Authorization
header; when the header, the scheme or the credentials part is falsy raise
403 "Not authenticated"; when the scheme is not `bearer` case-insensitively
raise 403 "Invalid authentication credentials"; otherwise return the
credentials.  Note both rejections carry HTTP 403, not 401. -/
def http_bearer (authorization : Option String) :
    Except HTTPError HTTPAuthorizationCredentials :=
  let sp := get_authorization_scheme_param authorization
  if authorization.getD "" = "" ∨ sp.1 = "" ∨ sp.2 = "" then
    .error { status_code := 403, detail := "Not authenticated"
             www_authenticate := none }
  else if strToLower sp.1 ≠ "bearer" then
    .error { status_code := 403, detail := "Invalid authentication credentials"
             www_authenticate := none }
  else
    .ok { scheme := sp.1, credentials := sp.2 }

/-- The full guard as FastAPI resolves the dependency chain of
`get_current_user` (main.py line 82): `Security(http_bearer)` runs first and
its exception short-circuits the request; only with extracted credentials does
the body of `get_current_user` run, applying the token verifier to the
credential string. -/
def auth_guard (verify : String → Option String) (db : List UserRecord)
    (authorization : Option String) : Except HTTPError UserRecord :=
  match http_bearer authorization with
  | .error e => .error e
  | .ok credentials => get_current_user verify db credentials.credentials

/-- A well-formed bearer header as `HTTPBearer` accepts it: present, with a
non-empty scheme equal to "bearer" case-insensitively and a non-empty
credential after the first space. -/
def isWellFormedBearer (authorization : Option String) : Bool :=
  match authorization with
  | none => false
  | some v =>
    let sp := get_authorization_scheme_param (some v)
    v ≠ "" && sp.1 ≠ "" && sp.2 ≠ "" && strToLower sp.1 = "bearer"

/-- C7 counterexample: the claim says a request with no Authorization header
is rejected with HTTP 401, but the guard built on FastAPI HTTPBearer rejects
it with HTTP 403 "Not authenticated". -/
theorem missing_credential_status_counterexample :
    auth_guard (fun _ => none) [] none =
      .error { status_code := 403, detail := "Not authenticated"
               www_authenticate := none } ∧
    (403 : Nat) ≠ 401 := by
  exact ⟨rfl, by decide⟩

/-- C7 amended: for every request whose Authorization header is absent or not
a well-formed Bearer credential, the guard rejects with HTTP 403 (the
HTTPBearer auto-error), and the token verifier is never consulted: the
rejection is the same for every verification function. -/
theorem malformed_credential_rejected_without_verify
    (db : List UserRecord) (authorization : Option String)
    (h : isWellFormedBearer authorization = false) :
    ∃ e : HTTPError, e.status_code = 403 ∧
      ∀ verify : String → Option String,
        auth_guard verify db authorization = .error e := by
  cases authorization with
  | none =>
    refine ⟨{ status_code := 403, detail := "Not authenticated"
              www_authenticate := none }, rfl, ?_⟩
    intro verify
    rfl
  | some v =>
    by_cases h1 : v = "" ∨ (get_authorization_scheme_param (some v)).1 = "" ∨
        (get_authorization_scheme_param (some v)).2 = ""
    · refine ⟨{ status_code := 403, detail := "Not authenticated"
                www_authenticate := none }, rfl, ?_⟩
      intro verify
      simp only [auth_guard, http_bearer]
      rw [if_pos]
      simpa using h1
    · refine ⟨{ status_code := 403
                detail := "Invalid authentication credentials"
                www_authenticate := none }, rfl, ?_⟩
      intro verify
      have h2 : strToLower (get_authorization_scheme_param (some v)).1 ≠ "bearer" := by
        simp only [isWellFormedBearer, Bool.and_eq_false_iff] at h
        push_neg at h1
        rcases h with ((h | h) | h) | h
        · simp_all [decide_eq_false_iff_not]
        · simp_all [decide_eq_false_iff_not]
        · simp_all [decide_eq_false_iff_not]
        · simpa [decide_eq_false_iff_not] using h
      simp only [auth_guard, http_bearer]
      rw [if_neg, if_pos h2]
      simpa using h1

/-- C7 amended witness: the header "Basic abc" (wrong scheme) is rejected
with 403 independently of the verifier. -/
theorem malformed_credential_rejected_without_verify_witness :
    isWellFormedBearer (some "Basic abc") = false ∧
    ∃ e : HTTPError, e.status_code = 403 ∧
      ∀ verify : String → Option String,
        auth_guard verify [] (some "Basic abc") = .error e :=
  ⟨by decide,
    malformed_credential_rejected_without_verify [] (some "Basic abc")
      (by decide)⟩

/-- Flipping bits of a byte with a non-zero mask changes the byte. -/
theorem xor_mask_ne_self (b m : Nat) (hm : m ≠ 0) : b ^^^ m ≠ b := by
  intro h
  apply hm
  have h2 : b ^^^ (b ^^^ m) = b ^^^ b := congrArg (fun x => b ^^^ x) h
  rw [← Nat.xor_assoc, Nat.xor_self, Nat.zero_xor] at h2
  exact h2

/-- Reading back the updated index of `List.set`. -/
theorem get_set_self (l : List Nat) (i x : Nat) (h : i < l.length) :
    (l.set i x).get? i = some x := by
  induction l generalizing i with
  | nil => simp at h
  | cons a t ih =>
    cases i with
    | zero => simp
    | succ n =>
      simpa using ih n (by simpa using h)

/-- Setting an index to a value different from the one stored there yields a
different list. -/
theorem set_ne_of_ne_get (l : List Nat) (i x : Nat) (h : i < l.length)
    (hx : x ≠ l.get ⟨i, h⟩) : l.set i x ≠ l := by
  intro he
  apply hx
  have h1 : (l.set i x).get? i = some x := get_set_self l i x h
  rw [he, List.get?_eq_get h] at h1
  exact (Option.some.inj h1).symm

/-- The signature list with the byte at index `i` xor-flipped by mask `m`. -/
def flipSigByte (token : Token) (i : Nat) (h : i < token.sig.length)
    (m : Nat) : Token :=
  { claims := token.claims
    sig := token.sig.set i (token.sig.get ⟨i, h⟩ ^^^ m) }

/-- C8: verification is a total function whose rejections are ordinary tagged
values, never exceptions.  Conjunct 1 characterises success: the subject is
returned exactly when the signature matches, the token is unexpired and the
`sub` claim is present and non-empty; every other input yields an error
tagged with one of BadSignature, Expired, MalformedClaims (the only
inhabitants of `RejectReason`, and `verify_token_reason` is a function, so
the tag is unique).  Conjuncts 2 and 3 relate the tagged form to the
`Option`-valued `verify_token` of the source.  Conjunct 4 is tamper
sensitivity: flipping any byte of the signature of a correctly signed token
with any non-zero mask yields the BadSignature rejection, never a success. -/
theorem verify_rejections_tagged_and_tamper_sensitive
    (sign : String → Claims → List Nat) (secret_key : String) (now : Int)
    (token : Token) :
    (∀ u, verify_token_reason sign secret_key now token = .ok u ↔
      (token.sig = sign secret_key token.claims ∧
        (∀ e, token.claims.exp = some e → ¬ e < now) ∧
        token.claims.sub = some u ∧ u ≠ "")) ∧
    (∀ u, verify_token sign secret_key now token = some u ↔
      verify_token_reason sign secret_key now token = .ok u) ∧
    (verify_token sign secret_key now token = none ↔
      ∃ r, verify_token_reason sign secret_key now token = .error r) ∧
    (token.sig = sign secret_key token.claims →
      ∀ i, ∀ h : i < token.sig.length, ∀ m, m ≠ 0 →
        verify_token_reason sign secret_key now (flipSigByte token i h m) =
          .error .BadSignature) := by
  refine ⟨?_, ?_, ?_, ?_⟩
  · intro u
    obtain ⟨⟨sub, exp⟩, sig⟩ := token
    by_cases hsig : sig = sign secret_key ⟨sub, exp⟩
    · cases exp with
      | some e =>
        by_cases he : e < now
        · apply iff_of_false
          · simp [verify_token_reason, jwt_decode, hsig, he]
          · rintro ⟨-, h2, -, -⟩
            exact h2 e rfl he
        · cases sub with
          | some w =>
            by_cases hw : w = ""
            · apply iff_of_false
              · simp [verify_token_reason, jwt_decode, hsig, he, hw]
              · rintro ⟨-, -, h3, h4⟩
                exact h4 ((Option.some.inj h3).symm.trans hw)
            · constructor
              · intro hok
                have h5 : (Except.ok w : Except RejectReason String) = .ok u := by
                  rw [← hok]
                  simp [verify_token_reason, jwt_decode, hsig, he, hw]
                have hu : w = u := Except.ok.inj h5
                subst hu
                refine ⟨hsig, ?_, rfl, hw⟩
                intro e2 he2
                rw [← Option.some.inj he2]
                exact he
              · rintro ⟨-, -, h3, -⟩
                have hu : w = u := Option.some.inj h3
                subst hu
                simp [verify_token_reason, jwt_decode, hsig, he, hw]
          | none =>
            apply iff_of_false
            · simp [verify_token_reason, jwt_decode, hsig, he]
            · rintro ⟨-, -, h3, -⟩
              exact Option.noConfusion h3
      | none =>
        cases sub with
        | some w =>
          by_cases hw : w = ""
          · apply iff_of_false
            · simp [verify_token_reason, jwt_decode, hsig, hw]
            · rintro ⟨-, -, h3, h4⟩
              exact h4 ((Option.some.inj h3).symm.trans hw)
          · constructor
            · intro hok
              have h5 : (Except.ok w : Except RejectReason String) = .ok u := by
                rw [← hok]
                simp [verify_token_reason, jwt_decode, hsig, hw]
              have hu : w = u := Except.ok.inj h5
              subst hu
              refine ⟨hsig, ?_, rfl, hw⟩
              intro e2 he2
              exact Option.noConfusion he2
            · rintro ⟨-, -, h3, -⟩
              have hu : w = u := Option.some.inj h3
              subst hu
              simp [verify_token_reason, jwt_decode, hsig, hw]
        | none =>
          apply iff_of_false
          · simp [verify_token_reason, jwt_decode, hsig]
          · rintro ⟨-, -, h3, -⟩
            exact Option.noConfusion h3
    · apply iff_of_false
      · simp [verify_token_reason, jwt_decode, hsig]
      · rintro ⟨h1, -, -, -⟩
        exact hsig h1
  · intro u
    unfold verify_token
    cases hv : verify_token_reason sign secret_key now token with
    | ok w => simp
    | error r => simp
  · unfold verify_token
    cases hv : verify_token_reason sign secret_key now token with
    | ok w => simp
    | error r => simp
  · intro hsig i h m hm
    have hne : (flipSigByte token i h m).sig ≠
        sign secret_key (flipSigByte token i h m).claims := by
      show token.sig.set i (token.sig.get ⟨i, h⟩ ^^^ m) ≠
        sign secret_key token.claims
      rw [← hsig]
      exact set_ne_of_ne_get token.sig i _ h
        (xor_mask_ne_self (token.sig.get ⟨i, h⟩) m hm)
    unfold verify_token_reason jwt_decode
    rw [if_neg hne]

/-- A concrete correctly signed sample token for the tamper witness. -/
def sampleSign : String → Claims → List Nat := fun _ _ => [5, 6]

/-- The sample token signed by `sampleSign`. -/
def sampleToken : Token :=
  { claims := { sub := some "alice", exp := some 2000 }, sig := [5, 6] }

/-- C8 witness: the sample token is correctly signed, and flipping byte 0 of
its two-byte signature with mask 1 yields the BadSignature rejection. -/
theorem verify_rejections_tagged_witness :
    (sampleToken.sig = sampleSign "k" sampleToken.claims ∧
      (0 : Nat) < sampleToken.sig.length ∧ (1 : Nat) ≠ 0) ∧
    verify_token_reason sampleSign "k" 1000
      (flipSigByte sampleToken 0 (by decide) 1) =
      .error .BadSignature :=
  ⟨⟨rfl, by decide, by decide⟩,
    (verify_rejections_tagged_and_tamper_sensitive sampleSign "k" 1000
        sampleToken).2.2.2 rfl 0 (by decide) 1 (by decide)⟩

end TinyJwtAuth
